import Mathlib

/-!
# Verification of the UK-IPOP geocoder pipeline

A shallow embedding of `src/geocoding/geocode.py` and of the keyword
classifier used by `scripts/drug_extraction.py`, together with theorems
settling the specification claims about them.

Python strings are modelled as Lean `String`/`List Char` (the data handled
by the pipeline is ASCII); missing values (`None`/`NaN`) are modelled as
`Option`; Python exceptions are modelled with `Except String`.
-/

namespace Geocoder

/-! ## Python string primitives -/

/-- The ASCII whitespace class recognised by Python's `str.strip` and the
regex class `\s`. -/
def pyIsSpace (c : Char) : Bool :=
  c = ' ' || c = '\t' || c = '\n' || c = '\r' || c = '\x0b' || c = '\x0c'

/-- Python `str.lower` on the character list (ASCII). -/
def pyLowerL (cs : List Char) : List Char := cs.map Char.toLower

/-- Python `str.upper` on the character list (ASCII). -/
def pyUpperL (cs : List Char) : List Char := cs.map Char.toUpper

/-- Python `str.strip` on the character list: drop whitespace from both ends. -/
def pyStripL (cs : List Char) : List Char :=
  ((cs.dropWhile pyIsSpace).reverse.dropWhile pyIsSpace).reverse

/-- Python `str.title` worker: an alphabetic character is upper-cased when the
previous character was not alphabetic, lower-cased otherwise. -/
def pyTitleAux : Bool → List Char → List Char
  | _, [] => []
  | prevAlpha, c :: cs =>
    if c.isAlpha then
      (if prevAlpha then c.toLower else c.toUpper) :: pyTitleAux true cs
    else
      c :: pyTitleAux false cs

/-- Python `str.title` on the character list (ASCII). -/
def pyTitleL (cs : List Char) : List Char := pyTitleAux false cs

/-- Does `hay` start with `needle`? -/
def startsWith : List Char → List Char → Bool
  | [], _ => true
  | _ :: _, [] => false
  | p :: ps, c :: cs => p == c && startsWith ps cs

/-- Python's `needle in hay` substring test. -/
def containsSub (needle : List Char) : List Char → Bool
  | [] => needle.isEmpty
  | c :: cs => startsWith needle (c :: cs) || containsSub needle cs

/-- String-level wrappers keeping the Python names close. -/
def pyLower (s : String) : String := ⟨pyLowerL s.data⟩

def pyUpper (s : String) : String := ⟨pyUpperL s.data⟩

def pyStrip (s : String) : String := ⟨pyStripL s.data⟩

def pyTitle (s : String) : String := ⟨pyTitleL s.data⟩

def containsSubStr (needle s : String) : Bool := containsSub needle.data s.data

/-! ## `remove_apartment_info` (geocode.py lines 66-79)

`re.sub(r"apt.*|\#.*|.*nh,", "", x)` followed by
`re.sub(r"[^a-zA-Z0-9.\s]", "", result1)`.

`re.sub` scans left to right; at each position the alternatives are tried
in order (`apt.*`, then `\#.*`, then `.*nh,`); `.` does not match a
newline, so `.*` runs to the end of the current line; the greedy `.*nh,`
therefore matches from the current position to the end of the *last*
occurrence of `"nh,"` in the current line.  After a (always non-empty)
match is deleted, scanning resumes at the end of the deleted region. -/

/-- End position (relative to the start of `line`) of the last occurrence
of `"nh,"` in `line`, if any — the extent of a greedy `.*nh,` match. -/
def lastNhEnd : List Char → Option Nat
  | [] => none
  | c :: cs =>
    match lastNhEnd cs with
    | some j => some (j + 1)
    | none => if startsWith ['n', 'h', ','] (c :: cs) then some 3 else none

/-- One left-to-right `re.sub` pass of `apt.*|\#.*|.*nh,` deleting every
match.  The fuel argument (initialised to the list length) makes the
recursion structural; every step consumes at least one character, so the
fuel never runs out on the initial call. -/
def sub1Aux : Nat → List Char → List Char
  | 0, cs => cs
  | _ + 1, [] => []
  | fuel + 1, c :: cs =>
    if startsWith ['a', 'p', 't'] (c :: cs) then
      sub1Aux fuel (((c :: cs).drop 3).dropWhile (fun ch => ch ≠ '\n'))
    else if c = '#' then
      sub1Aux fuel (cs.dropWhile (fun ch => ch ≠ '\n'))
    else
      match lastNhEnd ((c :: cs).takeWhile (fun ch => ch ≠ '\n')) with
      | some j => sub1Aux fuel ((c :: cs).drop j)
      | none => c :: sub1Aux fuel cs

/-- First substitution: delete apartment markers / `#` comments / `..nh,`. -/
def sub1 (cs : List Char) : List Char := sub1Aux cs.length cs

/-- Second substitution: keep only `[a-zA-Z0-9.\s]`. -/
def sub2 (cs : List Char) : List Char :=
  cs.filter (fun c => c.isAlphanum || c = '.' || pyIsSpace c)

/-- Function `remove_apartment_info` from geocode.py. -/
def remove_apartment_info (x : String) : String := ⟨sub2 (sub1 x.data)⟩

/-! ## `clean_address` (geocode.py lines 82-98) -/

/-- Function `clean_address` from geocode.py: `None` for missing input, `None` for
junk markers, otherwise `remove_apartment_info` of the lower-cased,
stripped street. -/
def clean_address (street : Option String) : Option String :=
  match street with
  | none => none
  | some st =>
    let s := pyStrip (pyLower st)
    if containsSubStr "unk" s || containsSubStr "n/a" s
        || s == "same" || s == "none" then
      none
    else
      some (remove_apartment_info s)

/-! ## `city_sub` and `create_address` (geocode.py lines 101-158) -/

/-- The address-bearing fields of one row of the case file; `none` models
a null/NaN cell. -/
structure CaseRow where
  incident_street : Option String
  incident_city : Option String
  residence_city : Option String
  incident_zip : Option String
  death_street : Option String
  death_city : Option String
  death_state : Option String
  death_zip : Option String
deriving DecidableEq

/-- Function `city_sub` from geocode.py: incident city when present, else the
residence city (flag `true`), else empty (flag `false`). -/
def city_sub (row : CaseRow) : String × Bool :=
  match row.incident_city with
  | some c => (pyStrip (pyTitle c), false)
  | none =>
    match row.residence_city with
    | some r => (pyStrip (pyTitle r), true)
    | none => ("", false)

/-- The value of an f-string slot `{x if x else ''}` where `x` is a
possibly-missing string: `None` and `""` both render as `""`. -/
def pySlot (o : Option String) : String := o.getD ""

/-- Function `create_address` from geocode.py.  Errors model Python exceptions:
the unguarded `row["death_city"].title()` raises `AttributeError` on a
null city, and an unknown flag raises `ValueError`. -/
def create_address (row : CaseRow) (flag : String) :
    Except String (String × Bool) :=
  if flag == "incident" then
    let street : Option String :=
      match row.incident_street with
      | some s => clean_address (some s)
      | none => some ""
    let (city, subbed) := city_sub row
    let zip_code : String := pySlot row.incident_zip
    .ok (pyStrip (pyUpper (pySlot street ++ " " ++ city ++ " " ++ zip_code)),
         subbed)
  else if flag == "death" then
    let street : Option String :=
      match row.death_street with
      | some s => clean_address (some s)
      | none => some ""
    match row.death_city with
    | none => .error "AttributeError: float object has no attribute title"
    | some dc =>
      let city := pyStrip (pyTitle dc)
      let state : String :=
        match row.death_state with
        | some st => pyStrip (pyTitle st)
        | none => ""
      let zip_code : String := pySlot row.death_zip
      .ok (pyStrip (pyUpper
            (pySlot street ++ " " ++ city ++ " " ++ state ++ " " ++ zip_code)),
           false)
  else
    .error "ValueError: flag must be either incident or death"

/-! ## `run_geocoding` (geocode.py lines 32-63)

The ArcGIS provider is an external collaborator; it is modelled as a
function from a query string to a ranked candidate list (the fixed
`search_extent` bounding box and `location_type` are folded into it).
Coordinates and scores are an arbitrary type `α` since the pipeline never
computes with them, only tests their presence. -/

/-- One ranked candidate returned by the geocoding provider
(`best_result["address"]`, `["location"]["y"]`, `["location"]["x"]`,
`["score"]`). -/
structure Candidate (α : Type) where
  address : String
  y : α
  x : α
  score : α
deriving DecidableEq

/-- One entry of the `results` list built by `run_geocoding`. -/
structure GeoResult (α : Type) where
  address : Option String
  latitude : Option α
  longitude : Option α
  score : Option α
deriving DecidableEq

/-- The loop body of `run_geocoding` for a single address: skip null or
`"unknown"`-containing addresses (echoing the input address with null
coordinates and score), otherwise query the provider and keep the top
candidate, or the same null-filled entry when no candidate comes back. -/
def geocodeOne {α : Type} (provider : String → List (Candidate α))
    (address : Option String) : GeoResult α :=
  match address with
  | none => ⟨none, none, none, none⟩
  | some a =>
    if containsSubStr "unknown" a then ⟨some a, none, none, none⟩
    else
      match provider a with
      | [] => ⟨some a, none, none, none⟩
      | best :: _ => ⟨some best.address, some best.y, some best.x, some best.score⟩

/-- Function `run_geocoding` from geocode.py: the loop over all addresses. -/
def run_geocoding {α : Type} (provider : String → List (Candidate α))
    (addresses : List (Option String)) : List (GeoResult α) :=
  addresses.map (geocodeOne provider)

/-! ## `composite_lat_long` and `combine_geo_results` (geocode.py lines 161-202)

The original table is modelled with its join key, the two raw coordinate
columns read by `composite_lat_long`, and an opaque payload `rest`
standing for every other pre-existing column.  Coordinates are an
arbitrary type `α`. -/

/-- A row of the original case table: join key, raw coordinates, and all
remaining columns bundled as `rest`. -/
structure OrigRow (α β : Type) where
  casenumber : Nat
  latitude : Option α
  longitude : Option α
  rest : β
deriving DecidableEq

/-- A row of the geocoded table restricted to the five columns selected
by `combine_geo_results`. -/
structure CodedRow (α : Type) where
  casenumber : Nat
  geocoded_latitude : Option α
  geocoded_longitude : Option α
  geocoded_score : Option α
  geocoded_address : Option String
deriving DecidableEq

/-- A row of `pd.merge(left=original_df, right=coded_df[...],
on="casenumber", how="left")`: all original columns plus the four
geocoded columns (null when the key found no match). -/
structure JoinedRow (α β : Type) where
  orig : OrigRow α β
  geocoded_latitude : Option α
  geocoded_longitude : Option α
  geocoded_score : Option α
  geocoded_address : Option String
deriving DecidableEq

/-- A fully enriched output row: the merged row plus the three derived
columns `recovered`, `final_latitude`, `final_longitude` — exactly the
seven columns `combine_geo_results` adds to the original table. -/
structure EnrichedRow (α β : Type) where
  joined : JoinedRow α β
  recovered : Nat
  final_latitude : Option α
  final_longitude : Option α
deriving DecidableEq

/-- Function `composite_lat_long` from geocode.py: first non-null of raw and
geocoded coordinate for the requested axis; any other toggle raises. -/
def composite_lat_long {α β : Type} (row : JoinedRow α β) (toggle : String) :
    Except String (Option α) :=
  if toggle == "lat" then
    match row.orig.latitude with
    | some v => .ok (some v)
    | none =>
      match row.geocoded_latitude with
      | some v => .ok (some v)
      | none => .ok none
  else if toggle == "long" then
    match row.orig.longitude with
    | some v => .ok (some v)
    | none =>
      match row.geocoded_longitude with
      | some v => .ok (some v)
      | none => .ok none
  else
    .error "expected toggle value to be either lat or long"

/-- The pandas left merge on `casenumber`: every original row, paired
with each coded row sharing its key (in order), or with nulls when no
coded row matches. -/
def mergeLeft {α β : Type} (orig : List (OrigRow α β)) (coded : List (CodedRow α)) :
    List (JoinedRow α β) :=
  match orig with
  | [] => []
  | o :: os =>
    (let ms := coded.filter (fun c => c.casenumber == o.casenumber)
     if ms.isEmpty then [⟨o, none, none, none, none⟩]
     else ms.map (fun c =>
       ⟨o, c.geocoded_latitude, c.geocoded_longitude, c.geocoded_score,
        c.geocoded_address⟩))
    ++ mergeLeft os coded

/-- The column `df.geocoded_score.apply(lambda x: 1 if pd.notna(x) else 0)` for one
cell. -/
def recoveredOf {α : Type} (score : Option α) : Nat :=
  if score.isSome then 1 else 0

/-- Derive the three computed columns for one merged row; an exception
from `composite_lat_long` propagates. -/
def enrichRow {α β : Type} (j : JoinedRow α β) : Except String (EnrichedRow α β) :=
  match composite_lat_long j "lat", composite_lat_long j "long" with
  | .ok lat, .ok lng => .ok ⟨j, recoveredOf j.geocoded_score, lat, lng⟩
  | .error e, _ => .error e
  | _, .error e => .error e

/-- Row-wise `df.apply` where the body may raise: the first exception
aborts the whole pass. -/
def mapExcept {γ δ : Type} (f : γ → Except String δ) :
    List γ → Except String (List δ)
  | [] => .ok []
  | x :: xs =>
    match f x, mapExcept f xs with
    | .ok y, .ok ys => .ok (y :: ys)
    | .error e, _ => .error e
    | _, .error e => .error e

/-- Function `combine_geo_results` from geocode.py: left-merge the geocoded
columns onto the original table, then add `recovered`,
`final_latitude`, `final_longitude`. -/
def combine_geo_results {α β : Type} (coded : List (CodedRow α))
    (orig : List (OrigRow α β)) : Except String (List (EnrichedRow α β)) :=
  mapExcept enrichRow (mergeLeft orig coded)

/-! ## The keyword classifier -/

/-- Modelled from the spec: `search_handler` is defined in
`geocoding/drug_extract_utils.py`, which is not part of the repository
snapshot — only its caller `scripts/drug_extraction.py` is.  Per the
spec (§4.4), it returns true iff the lower-cased narrative text contains
at least one of the class's search terms as a substring; null text
yields false, never an error. -/
def search_handler (x : Option String) (search_words : List String) : Bool :=
  match x with
  | none => false
  | some t => search_words.any (fun w => containsSubStr w (pyLower t))

/-! ## Derived notions used to state the claims -/

/-- The character class an already-cleaned street string may contain:
lower-case letters, digits, `.`, and whitespace. -/
def cleanChar (c : Char) : Bool :=
  c.isLower || c.isDigit || c = '.' || pyIsSpace c

/-- First-non-null preference: `a` when present, else `b`. -/
def firstSome {α : Type} (a b : Option α) : Option α :=
  match a with
  | some v => some v
  | none => b

/-- The address string `create_address` produces in the incident context. -/
def incident_address (row : CaseRow) : String :=
  pyStrip (pyUpper
    (pySlot (match row.incident_street with
      | some s => clean_address (some s)
      | none => some "")
     ++ " " ++ (city_sub row).1 ++ " " ++ pySlot row.incident_zip))

/-- The address string `create_address` produces in the death context
when the death city is the (non-null) string `dc`. -/
def death_address (row : CaseRow) (dc : String) : String :=
  pyStrip (pyUpper
    (pySlot (match row.death_street with
      | some s => clean_address (some s)
      | none => some "")
     ++ " " ++ pyStrip (pyTitle dc) ++ " "
     ++ (match row.death_state with
        | some st => pyStrip (pyTitle st)
        | none => "")
     ++ " " ++ pySlot row.death_zip))

/-! # Theorems -/

/-! ## Shape lemmas for `create_address` -/

theorem create_address_incident (row : CaseRow) :
    create_address row "incident" = .ok (incident_address row, (city_sub row).2) := by
  rcases hcs : city_sub row with ⟨city, subbed⟩
  simp [create_address, incident_address, hcs]

theorem create_address_death (row : CaseRow) (dc : String)
    (h : row.death_city = some dc) :
    create_address row "death" = .ok (death_address row dc, false) := by
  simp [create_address, death_address, h]

theorem create_address_death_null (row : CaseRow) (h : row.death_city = none) :
    create_address row "death"
      = .error "AttributeError: float object has no attribute title" := by
  simp [create_address, h]

/-! ## C1 -/

/-- C1 (counterexample): on the record with raw incident street
`"123 Main St Apt #4B"`, null incident city, residence city
`"columbia"` and zip `"65201"`, `create_address` returns
`"123 MAIN ST  COLUMBIA 65201"` — with a double space, because the
trailing space left by apartment removal is kept and the f-string adds
its own separating space — not the single-spaced string the claim
asserts. -/
theorem C1_end_to_end_counterexample :
    create_address
        ⟨some "123 Main St Apt #4B", none, some "columbia", some "65201",
         none, none, none, none⟩ "incident"
      = .ok ("123 MAIN ST  COLUMBIA 65201", true) ∧
    "123 MAIN ST  COLUMBIA 65201" ≠ "123 MAIN ST COLUMBIA 65201" :=
  ⟨rfl, by decide⟩

/-- C1 (amended): on that record the incident address is
`"123 MAIN ST  COLUMBIA 65201"` (two internal spaces) with substitution
flag `true`; the cleaned street is `"123 main st "` (trailing space
preserved); the whole address is trimmed only at its two ends. -/
theorem C1_end_to_end_amended :
    create_address
        ⟨some "123 Main St Apt #4B", none, some "columbia", some "65201",
         none, none, none, none⟩ "incident"
      = .ok ("123 MAIN ST  COLUMBIA 65201", true) ∧
    clean_address (some "123 Main St Apt #4B") = some "123 main st " ∧
    pyStrip "123 MAIN ST  COLUMBIA 65201" = "123 MAIN ST  COLUMBIA 65201" :=
  ⟨rfl, rfl, rfl⟩

/-! ## C3 -/

/-- C3 (counterexample): `create_address` does raise on missing data in
the death context — a record whose `death_city` is null hits the
unguarded `row["death_city"].title()` and fails with `AttributeError`. -/
theorem C3_never_raises_counterexample :
    create_address ⟨none, none, none, none, none, none, none, none⟩ "death"
      = .error "AttributeError: float object has no attribute title" := rfl

/-- C3 (amended): in the incident context `create_address` never raises,
whatever components are missing; in the death context it never raises
provided `death_city` is non-null; with `death_city` null it raises
`AttributeError`.  All resolved components fall back to the empty
string, so the result is always a (possibly empty) string in the
non-raising cases. -/
theorem C3_never_raises_amended (row : CaseRow) :
    (∃ a b, create_address row "incident" = Except.ok (a, b)) ∧
    (∀ dc, row.death_city = some dc →
      ∃ a, create_address row "death" = Except.ok (a, false)) ∧
    (row.death_city = none →
      create_address row "death"
        = .error "AttributeError: float object has no attribute title") := by
  refine ⟨⟨_, _, create_address_incident row⟩, ?_, ?_⟩
  · intro dc hdc
    exact ⟨_, create_address_death row dc hdc⟩
  · intro hnone
    exact create_address_death_null row hnone

/-- C3 (witness). -/
theorem C3_never_raises_witness :
    (∃ a b,
      create_address
        ⟨some "5 Oak St", some "mexico", none, some "65265",
         some "5 Oak St", some "mexico", some "mo", some "65265"⟩ "incident"
        = Except.ok (a, b)) ∧
    (∃ a,
      create_address
        ⟨some "5 Oak St", some "mexico", none, some "65265",
         some "5 Oak St", some "mexico", some "mo", some "65265"⟩ "death"
        = Except.ok (a, false)) ∧
    create_address ⟨none, none, none, none, none, none, none, none⟩ "death"
      = .error "AttributeError: float object has no attribute title" :=
  ⟨(C3_never_raises_amended _).1,
   (C3_never_raises_amended _).2.1 "mexico" rfl,
   (C3_never_raises_amended _).2.2 rfl⟩

/-! ## C7 -/

/-- C7: with a non-null incident city the city segment is its
title-cased, trimmed value and no substitution happens (flag `false`,
also as returned by `create_address`); with a null incident city and a
non-null residence city, the segment is the title-cased, trimmed
residence city and the flag is `true`; with both null the city is empty
and the flag is `false`. -/
theorem C7_city_substitution (row : CaseRow) :
    (∀ c, row.incident_city = some c →
      city_sub row = (pyStrip (pyTitle c), false) ∧
      ∀ a b, create_address row "incident" = .ok (a, b) → b = false) ∧
    (∀ r, row.incident_city = none → row.residence_city = some r →
      city_sub row = (pyStrip (pyTitle r), true) ∧
      ∀ a b, create_address row "incident" = .ok (a, b) → b = true) ∧
    (row.incident_city = none → row.residence_city = none →
      city_sub row = ("", false)) := by
  refine ⟨?_, ?_, ?_⟩
  · intro c hc
    have hcs : city_sub row = (pyStrip (pyTitle c), false) := by
      simp [city_sub, hc]
    refine ⟨hcs, ?_⟩
    intro a b hab
    rw [create_address_incident row, hcs] at hab
    exact (Prod.mk.injEq .. ▸ (Except.ok.injEq .. ▸ hab)).2.symm
  · intro r hic hrc
    have hcs : city_sub row = (pyStrip (pyTitle r), true) := by
      simp [city_sub, hic, hrc]
    refine ⟨hcs, ?_⟩
    intro a b hab
    rw [create_address_incident row, hcs] at hab
    exact (Prod.mk.injEq .. ▸ (Except.ok.injEq .. ▸ hab)).2.symm
  · intro hic hrc
    simp [city_sub, hic, hrc]

/-- C7 (witness). -/
theorem C7_city_substitution_witness :
    city_sub ⟨none, some "east lansing", some "detroit", none,
              none, none, none, none⟩ = ("East Lansing", false) ∧
    city_sub ⟨none, none, some "detroit", none,
              none, none, none, none⟩ = ("Detroit", true) ∧
    city_sub ⟨none, none, none, none, none, none, none, none⟩ = ("", false) := by
  refine ⟨?_, ?_, ?_⟩
  · have h := ((C7_city_substitution
      ⟨none, some "east lansing", some "detroit", none,
       none, none, none, none⟩).1 "east lansing" rfl).1
    rw [h]; rfl
  · have h := ((C7_city_substitution
      ⟨none, none, some "detroit", none,
       none, none, none, none⟩).2.1 "detroit" rfl rfl).1
    rw [h]; rfl
  · exact (C7_city_substitution
      ⟨none, none, none, none, none, none, none, none⟩).2.2 rfl rfl

/-! ## C8 -/

/-- C8: `create_address` fails with its `ValueError` for every flag other
than `"incident"`/`"death"`, and `composite_lat_long` fails with its
descriptive error for every toggle other than `"lat"`/`"long"`; the
errors are returned eagerly from the final `else` branches, never
swallowed. -/
theorem C8_invalid_arguments {α β : Type} (row : CaseRow) (j : JoinedRow α β)
    (flag toggle : String)
    (hf1 : flag ≠ "incident") (hf2 : flag ≠ "death")
    (ht1 : toggle ≠ "lat") (ht2 : toggle ≠ "long") :
    create_address row flag
      = .error "ValueError: flag must be either incident or death" ∧
    composite_lat_long j toggle
      = .error "expected toggle value to be either lat or long" := by
  have hfi : (flag == "incident") = false := beq_eq_false_iff_ne.mpr hf1
  have hfd : (flag == "death") = false := beq_eq_false_iff_ne.mpr hf2
  have htl : (toggle == "lat") = false := beq_eq_false_iff_ne.mpr ht1
  have htg : (toggle == "long") = false := beq_eq_false_iff_ne.mpr ht2
  constructor
  · simp [create_address, hfi, hfd]
  · simp [composite_lat_long, htl, htg]

/-- C8 (witness). -/
theorem C8_invalid_arguments_witness :
    create_address ⟨none, none, none, none, none, none, none, none⟩ "incidence"
      = .error "ValueError: flag must be either incident or death" ∧
    composite_lat_long (⟨⟨0, none, none, ()⟩, none, none, none, none⟩ :
        JoinedRow Int Unit) "latitude"
      = .error "expected toggle value to be either lat or long" :=
  C8_invalid_arguments ⟨none, none, none, none, none, none, none, none⟩
    ⟨⟨0, none, none, ()⟩, none, none, none, none⟩ "incidence" "latitude"
    (by decide) (by decide) (by decide) (by decide)

/-! ## C9 -/

/-- C9: `search_handler` (modelled from the spec, see its definition)
returns `false` for null text, returns `true` exactly when the
lower-cased text contains at least one search term as a substring, and
returns `false` whenever every term fails to match; null text is handled
without error by construction. -/
theorem C9_search_handler_spec (x : Option String) (search_words : List String) :
    search_handler none search_words = false ∧
    (search_handler x search_words = true ↔
      ∃ t, x = some t ∧ ∃ w ∈ search_words, containsSubStr w (pyLower t) = true) ∧
    (∀ t, x = some t →
      (∀ w ∈ search_words, containsSubStr w (pyLower t) = false) →
      search_handler x search_words = false) := by
  refine ⟨rfl, ?_, ?_⟩
  · cases x with
    | none => simp [search_handler]
    | some t => simp [search_handler, List.any_eq_true]
  · rintro t rfl hnone
    simp only [search_handler, List.any_eq_false]
    intro w hw
    simp [hnone w hw]

/-- C9 (witness). -/
theorem C9_search_handler_witness :
    search_handler (some "Death due to fentanyl and heroin toxicity")
      ["fentanyl", "heroin", "oxycodone"] = true ∧
    search_handler (some "natural causes") ["fentanyl", "heroin"] = false ∧
    search_handler none ["fentanyl"] = false := by
  refine ⟨?_, ?_, ?_⟩
  · exact (C9_search_handler_spec
      (some "Death due to fentanyl and heroin toxicity")
      ["fentanyl", "heroin", "oxycodone"]).2.1.mpr
      ⟨"Death due to fentanyl and heroin toxicity", rfl,
       "fentanyl", by decide, by decide⟩
  · exact (C9_search_handler_spec (some "natural causes")
      ["fentanyl", "heroin"]).2.2 "natural causes" rfl (by decide)
  · exact (C9_search_handler_spec none ["fentanyl"]).1

/-! ## C6 -/

/-- C6 (counterexample): for the address `"unknown"` the result entry is
not all-null — its `address` field echoes the input address (here even
with a provider that would have returned a candidate, showing the call
is skipped). -/
theorem C6_skip_policy_counterexample :
    run_geocoding (α := Int) (fun _ => [⟨"MATCHED", 1, 2, 3⟩]) [some "unknown"]
      = [⟨some "unknown", none, none, none⟩] ∧
    (some "unknown" : Option String) ≠ none :=
  ⟨rfl, by decide⟩

/-- C6 (amended): for every address that is null or contains the literal
substring `"unknown"` (case-sensitive), `run_geocoding` does not invoke
the provider (the result is the same for any two providers) and appends
a tuple whose latitude, longitude and score are null and whose address
field echoes the input address — null exactly when the input address was
null.  A provider response with zero candidates likewise yields the
null-coordinate tuple echoing the input address. -/
theorem C6_skip_policy_amended {α : Type}
    (p q : String → List (Candidate α))
    (addresses : List (Option String)) (a : String) :
    ((∀ ad ∈ addresses,
        ad = none ∨ ∃ s, ad = some s ∧ containsSubStr "unknown" s = true) →
      run_geocoding p addresses
        = addresses.map (fun ad => ⟨ad, none, none, none⟩) ∧
      run_geocoding p addresses = run_geocoding q addresses) ∧
    (p a = [] → geocodeOne p (some a) = ⟨some a, none, none, none⟩) := by
  constructor
  · intro h
    have key : ∀ r : String → List (Candidate α), ∀ ad ∈ addresses,
        geocodeOne r ad = ⟨ad, none, none, none⟩ := by
      intro r ad had
      rcases h ad had with rfl | ⟨s, rfl, hs⟩
      · rfl
      · simp [geocodeOne, hs]
    constructor
    · exact List.map_congr_left (key p)
    · calc run_geocoding p addresses
          = addresses.map (fun ad => ⟨ad, none, none, none⟩) :=
            List.map_congr_left (key p)
        _ = run_geocoding q addresses := (List.map_congr_left (key q)).symm
  · intro hp
    cases hu : containsSubStr "unknown" a with
    | true => simp [geocodeOne, hu]
    | false => simp [geocodeOne, hu, hp]

/-- C6 (witness). -/
theorem C6_skip_policy_witness :
    (run_geocoding (α := Int) (fun _ => []) [none, some "123 unknown st"]
      = [⟨none, none, none, none⟩, ⟨some "123 unknown st", none, none, none⟩] ∧
     run_geocoding (α := Int) (fun _ => []) [none, some "123 unknown st"]
      = run_geocoding (fun _ => [⟨"Z", 0, 0, 0⟩]) [none, some "123 unknown st"]) ∧
    geocodeOne (α := Int) (fun _ => []) (some "5 OAK ST")
      = ⟨some "5 OAK ST", none, none, none⟩ := by
  have hall : ∀ ad ∈ [none, some "123 unknown st"],
      ad = none ∨ ∃ s, ad = some s ∧ containsSubStr "unknown" s = true := by
    intro ad had
    rcases List.mem_cons.mp had with rfl | had2
    · exact Or.inl rfl
    · rcases List.mem_cons.mp had2 with rfl | h
      · exact Or.inr ⟨"123 unknown st", rfl, by decide⟩
      · exact absurd h (List.not_mem_nil _)
  exact ⟨(C6_skip_policy_amended (fun _ => []) (fun _ => [⟨"Z", 0, 0, 0⟩])
            [none, some "123 unknown st"] "5 OAK ST").1 hall,
         (C6_skip_policy_amended (fun _ => []) (fun _ => [⟨"Z", 0, 0, 0⟩])
            [none, some "123 unknown st"] "5 OAK ST").2 rfl⟩

/-! ## Reconciliation lemmas -/

theorem enrichRow_eq {α β : Type} (j : JoinedRow α β) :
    enrichRow j = .ok ⟨j, recoveredOf j.geocoded_score,
      firstSome j.orig.latitude j.geocoded_latitude,
      firstSome j.orig.longitude j.geocoded_longitude⟩ := by
  rcases j with ⟨⟨cn, lat, lng, rest⟩, glat, glng, gsc, gad⟩
  cases lat <;> cases lng <;> cases glat <;> cases glng <;> rfl

theorem mapExcept_ok {γ δ : Type} (f : γ → Except String δ) (g : γ → δ)
    (h : ∀ x, f x = .ok (g x)) (xs : List γ) :
    mapExcept f xs = .ok (xs.map g) := by
  induction xs with
  | nil => rfl
  | cons x xs ih => simp [mapExcept, h x, ih]

theorem combine_geo_results_ok {α β : Type} (coded : List (CodedRow α))
    (orig : List (OrigRow α β)) :
    combine_geo_results coded orig
      = .ok ((mergeLeft orig coded).map (fun j =>
          ⟨j, recoveredOf j.geocoded_score,
           firstSome j.orig.latitude j.geocoded_latitude,
           firstSome j.orig.longitude j.geocoded_longitude⟩)) :=
  mapExcept_ok enrichRow _ enrichRow_eq _

/-! ## C4 -/

/-- C4: in the output of `combine_geo_results`, every row has
`recovered = 1` exactly when its `geocoded_score` is non-null; a null
score forces `recovered = 0` regardless of the geocoded coordinates. -/
theorem C4_recovered_is_score_gate {α β : Type} (coded : List (CodedRow α))
    (orig : List (OrigRow α β)) (out : List (EnrichedRow α β))
    (h : combine_geo_results coded orig = .ok out) :
    ∀ r ∈ out,
      (r.recovered = 1 ↔ r.joined.geocoded_score ≠ none) ∧
      (r.joined.geocoded_score = none → r.recovered = 0) := by
  rw [combine_geo_results_ok coded orig] at h
  have hout := Except.ok.inj h
  subst hout
  intro r hr
  obtain ⟨j, hj, rfl⟩ := List.mem_map.mp hr
  cases j.geocoded_score <;> simp [recoveredOf]

/-- C4 (witness): a row whose geocoded coordinates are present but whose
score is null has `recovered = 0`. -/
theorem C4_recovered_is_score_gate_witness :
    ((⟨⟨⟨1, none, none, ()⟩, some 5, some 6, none, some "A"⟩, 0, some 5, some 6⟩ :
        EnrichedRow Int Unit).recovered = 1 ↔
      (⟨⟨⟨1, none, none, ()⟩, some 5, some 6, none, some "A"⟩, 0, some 5, some 6⟩ :
        EnrichedRow Int Unit).joined.geocoded_score ≠ none) ∧
    ((⟨⟨⟨1, none, none, ()⟩, some 5, some 6, none, some "A"⟩, 0, some 5, some 6⟩ :
        EnrichedRow Int Unit).joined.geocoded_score = none →
      (⟨⟨⟨1, none, none, ()⟩, some 5, some 6, none, some "A"⟩, 0, some 5, some 6⟩ :
        EnrichedRow Int Unit).recovered = 0) :=
  C4_recovered_is_score_gate
    [⟨1, some 5, some 6, none, some "A"⟩] [⟨1, none, none, ()⟩]
    [⟨⟨⟨1, none, none, ()⟩, some 5, some 6, none, some "A"⟩, 0, some 5, some 6⟩]
    rfl _ (List.Mem.head _)

/-! ## C5 -/

/-- C5: in the output of `combine_geo_results`, each final coordinate is
the first non-null of the raw and the geocoded value for its own axis,
independently per axis — so the two final coordinates can come from
different sources. -/
theorem C5_composite_per_axis {α β : Type} (coded : List (CodedRow α))
    (orig : List (OrigRow α β)) (out : List (EnrichedRow α β))
    (h : combine_geo_results coded orig = .ok out) :
    ∀ r ∈ out,
      r.final_latitude
        = firstSome r.joined.orig.latitude r.joined.geocoded_latitude ∧
      r.final_longitude
        = firstSome r.joined.orig.longitude r.joined.geocoded_longitude := by
  rw [combine_geo_results_ok coded orig] at h
  have hout := Except.ok.inj h
  subst hout
  intro r hr
  obtain ⟨j, hj, rfl⟩ := List.mem_map.mp hr
  exact ⟨rfl, rfl⟩

/-- C5 (witness): raw latitude `3895` beats geocoded `3890`, while the
missing raw longitude falls back to the geocoded `-9233` — the two final
coordinates come from different sources. -/
theorem C5_composite_per_axis_witness :
    (⟨⟨⟨1, some 3895, none, ()⟩, some 3890, some (-9233), some 91, some "B"⟩,
        1, some 3895, some (-9233)⟩ : EnrichedRow Int Unit).final_latitude
      = firstSome (some 3895) (some 3890) ∧
    (⟨⟨⟨1, some 3895, none, ()⟩, some 3890, some (-9233), some 91, some "B"⟩,
        1, some 3895, some (-9233)⟩ : EnrichedRow Int Unit).final_longitude
      = firstSome none (some (-9233)) :=
  C5_composite_per_axis
    [⟨1, some 3890, some (-9233), some 91, some "B"⟩] [⟨1, some 3895, none, ()⟩]
    [⟨⟨⟨1, some 3895, none, ()⟩, some 3890, some (-9233), some 91, some "B"⟩,
      1, some 3895, some (-9233)⟩]
    rfl _ (List.Mem.head _)

/-! ## C10 -/

theorem filter_casenumber_length_le_one {α : Type} (coded : List (CodedRow α))
    (k : Nat) (h : (coded.map (fun c => c.casenumber)).Nodup) :
    (coded.filter (fun c => c.casenumber == k)).length ≤ 1 := by
  induction coded with
  | nil => simp
  | cons c cs ih =>
    rw [List.map_cons, List.nodup_cons] at h
    obtain ⟨hnotin, hnd⟩ := h
    rw [List.filter_cons]
    by_cases hc : (c.casenumber == k) = true
    · rw [if_pos hc]
      have hnilf : cs.filter (fun x => x.casenumber == k) = [] := by
        rw [List.filter_eq_nil_iff]
        intro x hx hxk
        have hxc : x.casenumber = c.casenumber :=
          (eq_of_beq hxk).trans (eq_of_beq hc).symm
        exact hnotin (hxc ▸ List.mem_map_of_mem (fun c => c.casenumber) hx)
      simp [hnilf]
    · rw [if_neg hc]
      exact ih hnd

theorem mergeLeft_map_orig {α β : Type} (coded : List (CodedRow α))
    (orig : List (OrigRow α β))
    (h : (coded.map (fun c => c.casenumber)).Nodup) :
    (mergeLeft orig coded).map (fun j => j.orig) = orig := by
  induction orig with
  | nil => rfl
  | cons o os ih =>
    rw [show mergeLeft (o :: os) coded
        = (let ms := coded.filter (fun c => c.casenumber == o.casenumber)
           if ms.isEmpty then [⟨o, none, none, none, none⟩]
           else ms.map (fun c =>
             ⟨o, c.geocoded_latitude, c.geocoded_longitude, c.geocoded_score,
              c.geocoded_address⟩))
          ++ mergeLeft os coded from rfl]
    rw [List.map_append, ih]
    by_cases hms : (coded.filter (fun c => c.casenumber == o.casenumber)).isEmpty
    · simp only [hms, if_pos]
      rfl
    · simp only [hms, if_neg, Bool.false_eq_true, not_false_iff, List.map_map]
      have hle := filter_casenumber_length_le_one coded o.casenumber h
      have hne : (coded.filter (fun c => c.casenumber == o.casenumber)).length ≠ 0 := by
        intro h0
        exact hms (by rwa [List.isEmpty_iff, ← List.length_eq_zero])
      have h1 : (coded.filter (fun c => c.casenumber == o.casenumber)).length = 1 :=
        Nat.le_antisymm hle (Nat.one_le_iff_ne_zero.mpr hne)
      obtain ⟨c, hc⟩ := List.length_eq_one.mp h1
      rw [hc]
      rfl

/-- C10: with unique case identifiers on both tables,
`combine_geo_results` keeps the original table intact — projecting each
output row back to its pre-existing columns yields exactly the original
rows, in order (so there is exactly one output row per original row and
no pre-existing value changes); the output row type carries exactly the
seven added columns `geocoded_latitude`, `geocoded_longitude`,
`geocoded_score`, `geocoded_address`, `recovered`, `final_latitude`,
`final_longitude`. -/
theorem C10_frame_preservation {α β : Type} (coded : List (CodedRow α))
    (orig : List (OrigRow α β)) (out : List (EnrichedRow α β))
    (hcoded : (coded.map (fun c => c.casenumber)).Nodup)
    (_horig : (orig.map (fun o => o.casenumber)).Nodup)
    (h : combine_geo_results coded orig = .ok out) :
    out.map (fun r => r.joined.orig) = orig := by
  rw [combine_geo_results_ok coded orig] at h
  have hout := Except.ok.inj h
  subst hout
  rw [List.map_map]
  exact mergeLeft_map_orig coded orig hcoded

/-- C10 (witness). -/
theorem C10_frame_preservation_witness :
    ([⟨⟨⟨1, some 3, none, "r1"⟩, none, none, none, none⟩, 0, some 3, none⟩,
      ⟨⟨⟨2, none, none, "r2"⟩, some 9, some 8, some 77, some "X"⟩, 1, some 9, some 8⟩]
        : List (EnrichedRow Int String)).map (fun r => r.joined.orig)
      = [⟨1, some 3, none, "r1"⟩, ⟨2, none, none, "r2"⟩] :=
  C10_frame_preservation
    [⟨2, some 9, some 8, some 77, some "X"⟩]
    [⟨1, some 3, none, "r1"⟩, ⟨2, none, none, "r2"⟩]
    [⟨⟨⟨1, some 3, none, "r1"⟩, none, none, none, none⟩, 0, some 3, none⟩,
     ⟨⟨⟨2, none, none, "r2"⟩, some 9, some 8, some 77, some "X"⟩, 1, some 9, some 8⟩]
    (by decide) (by decide) rfl

/-! ## C2: substring and substitution lemmas -/

theorem startsWith_mem {n h : List Char} (hs : startsWith n h = true) :
    ∀ c ∈ n, c ∈ h := by
  induction n generalizing h with
  | nil => intro c hc; cases hc
  | cons p ps ih =>
    cases h with
    | nil => cases hs
    | cons x xs =>
      simp only [startsWith, Bool.and_eq_true] at hs
      obtain ⟨hpx, hrest⟩ := hs
      intro c hc
      rcases List.mem_cons.mp hc with rfl | hc2
      · rw [eq_of_beq hpx]; exact List.mem_cons_self x xs
      · exact List.mem_cons_of_mem x (ih hrest c hc2)

theorem containsSub_mem {n h : List Char} (hc : containsSub n h = true) :
    ∀ c ∈ n, c ∈ h := by
  induction h with
  | nil =>
    intro c hcn
    cases n with
    | nil => cases hcn
    | cons p ps => cases hc
  | cons x xs ih =>
    simp only [containsSub, Bool.or_eq_true] at hc
    rcases hc with hs | hrec
    · exact startsWith_mem hs
    · intro c hcn
      exact List.mem_cons_of_mem x (ih hrec c hcn)

theorem lastNhEnd_eq_none {l : List Char} (h : ',' ∉ l) : lastNhEnd l = none := by
  induction l with
  | nil => rfl
  | cons c cs ih =>
    have hcs : ',' ∉ cs := fun hm => h (List.mem_cons_of_mem c hm)
    have hsw : startsWith ['n', 'h', ','] (c :: cs) = false := by
      cases hsw : startsWith ['n', 'h', ','] (c :: cs) with
      | false => rfl
      | true => exact absurd (startsWith_mem hsw ',' (by decide)) h
    simp only [lastNhEnd, ih hcs, hsw, Bool.false_eq_true, if_false]

theorem sub1Aux_eq_self (fuel : Nat) (cs : List Char)
    (hapt : containsSub ['a', 'p', 't'] cs = false)
    (hhash : '#' ∉ cs) (hcomma : ',' ∉ cs) :
    sub1Aux fuel cs = cs := by
  induction fuel generalizing cs with
  | zero => rfl
  | succ n ih =>
    cases cs with
    | nil => rfl
    | cons c cs' =>
      simp only [containsSub, Bool.or_eq_false_iff] at hapt
      obtain ⟨hsw, hrec⟩ := hapt
      have hch : ¬(c = '#') := fun hc => hhash (hc ▸ List.mem_cons_self c cs')
      have hnone : lastNhEnd ((c :: cs').takeWhile (fun ch => ch ≠ '\n')) = none := by
        apply lastNhEnd_eq_none
        intro hmem
        exact hcomma ((List.takeWhile_sublist _).subset hmem)
      simp only [sub1Aux, hsw, Bool.false_eq_true, if_false, hch, if_neg, hnone]
      exact congrArg (c :: ·)
        (ih cs' hrec (fun hm => hhash (List.mem_cons_of_mem c hm))
          (fun hm => hcomma (List.mem_cons_of_mem c hm)))

theorem clean_address_fixpoint (t : String)
    (hlow : pyLowerL t.data = t.data)
    (hstrip : pyStripL t.data = t.data)
    (hchars : ∀ c ∈ t.data, cleanChar c = true)
    (hapt : containsSub ['a', 'p', 't'] t.data = false)
    (hunk : containsSub ['u', 'n', 'k'] t.data = false)
    (hsame : t ≠ "same") (hnone : t ≠ "none") :
    clean_address (some t) = some t := by
  have hs : pyStrip (pyLower t) = t := by
    show (⟨pyStripL (pyLowerL t.data)⟩ : String) = t
    rw [hlow, hstrip]
  have h1 : containsSubStr "unk" t = false := hunk
  have h2 : containsSubStr "n/a" t = false := by
    cases hna : containsSubStr "n/a" t with
    | false => rfl
    | true =>
      have hmem : '/' ∈ t.data := containsSub_mem hna '/' (by decide)
      exact absurd (hchars '/' hmem) (by decide)
  have h3 : (t == "same") = false := beq_eq_false_iff_ne.mpr hsame
  have h4 : (t == "none") = false := beq_eq_false_iff_ne.mpr hnone
  have hsub1 : sub1 t.data = t.data :=
    sub1Aux_eq_self _ _ hapt
      (fun hm => absurd (hchars _ hm) (by decide))
      (fun hm => absurd (hchars _ hm) (by decide))
  have hsub2 : sub2 t.data = t.data := by
    rw [sub2, List.filter_eq_self]
    intro c hcm
    have hcc := hchars c hcm
    simp only [cleanChar, Bool.or_eq_true] at hcc
    simp only [Bool.or_eq_true]
    rcases hcc with ((hl | hd) | hdot) | hsp
    · exact Or.inl (Or.inl (by simp [Char.isAlphanum, Char.isAlpha, hl]))
    · exact Or.inl (Or.inl (by simp [Char.isAlphanum, hd]))
    · exact Or.inl (Or.inr hdot)
    · exact Or.inr hsp
  have hrai : remove_apartment_info t = t := by
    show (⟨sub2 (sub1 t.data)⟩ : String) = t
    rw [hsub1, hsub2]
  simp only [clean_address, hs, h1, h2, h3, h4, Bool.or_self, Bool.false_or,
    Bool.or_false, if_false, hrai, Bool.false_eq_true]

/-! ## C2 -/

/-- C2 (counterexample): `clean_address` is not idempotent — cleaning
`"x apt y"` leaves the trailing space of `"x "`, and a second clean
strips it to `"x"`. -/
theorem C2_clean_idempotent_counterexample :
    clean_address (some "x apt y") = some "x " ∧
    clean_address (clean_address (some "x apt y")) = some "x" ∧
    ("x " : String) ≠ "x" :=
  ⟨rfl, rfl, by decide⟩

/-- C2 (amended): `clean_address (clean_address s) = clean_address s`
holds whenever the first clean yields a string that is already in fully
cleaned form: trimmed, lower-case with only letters/digits/`.`/spaces,
containing neither `"apt"` nor `"unk"`, and not equal to `"same"` or
`"none"`.  In general a second clean can differ: it strips a trailing
space left by apartment-marker removal, and it can null out a string
that punctuation removal turned into a junk marker (for example
`clean_address "u?nk" = "unk"`, which a second clean maps to `None`). -/
theorem C2_clean_idempotent_amended (s : Option String) (t : String)
    (hc : clean_address s = some t)
    (hlow : pyLowerL t.data = t.data)
    (hstrip : pyStripL t.data = t.data)
    (hchars : ∀ c ∈ t.data, cleanChar c = true)
    (hapt : containsSub ['a', 'p', 't'] t.data = false)
    (hunk : containsSub ['u', 'n', 'k'] t.data = false)
    (hsame : t ≠ "same") (hnone : t ≠ "none") :
    clean_address (clean_address s) = clean_address s := by
  rw [hc]
  exact clean_address_fixpoint t hlow hstrip hchars hapt hunk hsame hnone

/-- C2 (witness). -/
theorem C2_clean_idempotent_witness :
    clean_address (clean_address (some "123 main st."))
      = clean_address (some "123 main st.") :=
  C2_clean_idempotent_amended (some "123 main st.") "123 main st."
    rfl rfl rfl (by decide) (by decide) (by decide) (by decide) (by decide)

end Geocoder
